import Mathlib

/-
  Verification of the Mars-Mars-RL simulation engine.

  Shallow embedding of src/mars_env.py (the MarsGym Gymnasium environment),
  src/settings.py (constants), and the platform-management part of
  src/entities.py / src/main.py (the interactive host).

  Modelling conventions:
  - Python floats are modelled as real numbers; float rounding is out of scope.
  - The module-level numpy random stream (np.random.*) is modelled as an
    explicit NpRandom value threaded through reset and step, since the code
    draws from that global stream.  The per-instance stream self.np_random,
    seeded by super().reset(seed=seed), is modelled by the dead field
    np_seed: the code never reads it.
  - Dictionaries read with .get(k, 0) are modelled as total functions with
    default 0.
-/

set_option maxHeartbeats 1600000

namespace MarsMars

noncomputable section

/-- Constant from settings.py: SCREEN_WIDTH. -/
def SCREEN_WIDTH : ℚ := 1280

/-- Constant from settings.py: GRAVITY (pixels per second squared). -/
def GRAVITY : ℚ := 800

/-- Constant from settings.py: DRAG, the per-step air resistance multiplier. -/
def DRAG : ℚ := 98 / 100

/-- Constant from settings.py: TERMINAL_VELOCITY, the max fall speed. -/
def TERMINAL_VELOCITY : ℚ := 600

/-- Constant from settings.py: THRUST_POWER (upward thrust force). -/
def THRUST_POWER : ℚ := 1400

/-- Constant from settings.py: THRUST_HORIZONTAL (horizontal thrust force). -/
def THRUST_HORIZONTAL : ℚ := 700

/-- Constant from settings.py: PLAYER_WIDTH. -/
def PLAYER_WIDTH : ℚ := 40

/-- Constant from settings.py: PLAYER_HEIGHT. -/
def PLAYER_HEIGHT : ℚ := 50

/-- Constant from settings.py: MAX_FUEL. -/
def MAX_FUEL : ℚ := 100

/-- Constant from settings.py: FUEL_DRAIN_RATE (fuel units per second). -/
def FUEL_DRAIN_RATE : ℚ := 50

/-- Constant from settings.py: MAX_LANDING_SPEED_Y. -/
def MAX_LANDING_SPEED_Y : ℚ := 220

/-- Constant from settings.py: MAX_LANDING_SPEED_X. -/
def MAX_LANDING_SPEED_X : ℚ := 180

/-- Constant from settings.py: PLATFORM_WIDTH. -/
def PLATFORM_WIDTH : ℚ := 100

/-- Constant from settings.py: PLATFORM_HEIGHT. -/
def PLATFORM_HEIGHT : ℚ := 20

/-- Constant from settings.py: PLATFORM_MIN_DISTANCE_X. -/
def PLATFORM_MIN_DISTANCE_X : ℤ := 300

/-- Constant from settings.py: PLATFORM_MAX_DISTANCE_X. -/
def PLATFORM_MAX_DISTANCE_X : ℤ := 600

/-- Constant from settings.py: PLATFORM_MIN_DISTANCE_Y. -/
def PLATFORM_MIN_DISTANCE_Y : ℤ := -150

/-- Constant from settings.py: PLATFORM_MAX_DISTANCE_Y. -/
def PLATFORM_MAX_DISTANCE_Y : ℤ := 100

/-- Constant from settings.py: GROUND_LEVEL = SCREEN_HEIGHT - 100 = 620. -/
def GROUND_LEVEL : ℚ := 620

/-- Constant from settings.py: WIND_ENABLED. -/
def WIND_ENABLED : Bool := true

/-- Constant from settings.py: WIND_CHANGE_INTERVAL (frames between wind changes). -/
def WIND_CHANGE_INTERVAL : ℕ := 100

/-- Constant from settings.py: MAX_WIND_FORCE. -/
def MAX_WIND_FORCE : ℚ := 300

/-- Constant from settings.py: MOVING_PLATFORMS_ENABLED. -/
def MOVING_PLATFORMS_ENABLED : Bool := true

/-- Constant from settings.py: PLATFORM_MOVE_SPEED (pixels per second). -/
def PLATFORM_MOVE_SPEED : ℚ := 100

/-- Constant from settings.py: PLATFORM_MOVE_RANGE (range of motion around center). -/
def PLATFORM_MOVE_RANGE : ℚ := 150

/-- Constant from settings.py: REWARD_LANDING. -/
def REWARD_LANDING : ℝ := 100

/-- Constant from settings.py: REWARD_CRASH_GROUND. -/
def REWARD_CRASH_GROUND : ℝ := -100

/-- Constant from settings.py: REWARD_CRASH_PLATFORM. -/
def REWARD_CRASH_PLATFORM : ℝ := -30

/-- Constant from settings.py: REWARD_FUEL_PENALTY. -/
def REWARD_FUEL_PENALTY : ℝ := -5 / 100

/-- Constant from settings.py: REWARD_TIME_PENALTY. -/
def REWARD_TIME_PENALTY : ℝ := -1 / 100

/-- Model of the module-level numpy random stream (np.random).  A single
cursor advances on every draw; intVal gives the raw value consumed by an
integer draw at a given cursor position and floatVal the raw value consumed
by a float draw there.  The mappings below put the raw values into the
requested ranges, so every achievable numpy draw corresponds to some stream. -/
structure NpRandom where
  intVal : ℕ → ℤ
  floatVal : ℕ → ℚ
  cursor : ℕ

/-- Advance the global stream by one draw. -/
def NpRandom.next (r : NpRandom) : NpRandom :=
  { r with cursor := r.cursor + 1 }

/-- Model of np.random.randint(low, high): a value in [low, high). -/
def np_randint (low high : ℤ) (r : NpRandom) : ℤ × NpRandom :=
  (low + (r.intVal r.cursor) % (high - low), r.next)

/-- Fractional part of a rational, in [0, 1). -/
def fract01 (q : ℚ) : ℚ := q - ⌊q⌋

/-- Model of np.random.random(): a value in [0, 1). -/
def np_random01 (r : NpRandom) : ℚ × NpRandom :=
  (fract01 (r.floatVal r.cursor), r.next)

/-- Model of np.random.uniform(low, high). -/
def np_uniform (low high : ℚ) (r : NpRandom) : ℚ × NpRandom :=
  (low + fract01 (r.floatVal r.cursor) * (high - low), r.next)

/-- Platform record as built by MarsGym._spawn_platforms: the keys x, y,
width, height, initial_x, move_speed, move_phase.  Current x and the
oscillation phase become irrational once a moving platform advances, so they
live in the reals; the other fields only ever hold rational values. -/
structure Platform where
  x : ℝ
  y : ℚ
  width : ℚ
  height : ℚ
  initial_x : ℚ
  move_speed : ℚ
  move_phase : ℝ

/-- Fallback platform value used for modelled list indexing (the Python code
indexes lists that are nonempty by construction, so this value is never
actually selected in reachable states). -/
def defaultPlatform : Platform :=
  { x := 0, y := 0, width := 0, height := 0, initial_x := 0
    move_speed := 0, move_phase := 0 }

instance : Inhabited Platform := ⟨defaultPlatform⟩

/-- First platform appended by MarsGym._spawn_platforms (starting position,
static): x = SCREEN_WIDTH / 2 - PLATFORM_WIDTH / 2 = 590, y = GROUND_LEVEL.  -/
def firstPlatform : Platform :=
  { x := ((SCREEN_WIDTH / 2 - PLATFORM_WIDTH / 2 : ℚ) : ℝ)
    y := GROUND_LEVEL
    width := PLATFORM_WIDTH
    height := PLATFORM_HEIGHT
    initial_x := SCREEN_WIDTH / 2 - PLATFORM_WIDTH / 2
    move_speed := 0
    move_phase := 0 }

/-- One iteration of the generation loop in MarsGym._spawn_platforms: draw
the x and y spacing, position the new platform after the previous one, and
with the moving-platforms feature enabled decide with one float draw whether
it oscillates; an oscillating platform draws its direction and then its
initial phase. -/
def genPlatform (last : Platform) (r : NpRandom) : Platform × NpRandom :=
  let dxr := np_randint PLATFORM_MIN_DISTANCE_X PLATFORM_MAX_DISTANCE_X r
  let dyr := np_randint PLATFORM_MIN_DISTANCE_Y PLATFORM_MAX_DISTANCE_Y dxr.2
  let new_x : ℚ := last.initial_x + last.width + (dxr.1 : ℚ)
  let new_y : ℚ := max 200 (min GROUND_LEVEL (last.y + (dyr.1 : ℚ)))
  if MOVING_PLATFORMS_ENABLED then
    let t := np_random01 dyr.2
    if t.1 > 1 / 2 then
      let d := np_random01 t.2
      let move_speed : ℚ := PLATFORM_MOVE_SPEED * (if d.1 > 1 / 2 then 1 else -1)
      let ph := np_random01 d.2
      let phase : ℝ := ((ph.1 : ℝ)) * Real.pi * 2
      ({ x := (new_x : ℝ), y := new_y, width := PLATFORM_WIDTH
         height := PLATFORM_HEIGHT, initial_x := new_x
         move_speed := move_speed, move_phase := phase }, ph.2)
    else
      ({ x := (new_x : ℝ), y := new_y, width := PLATFORM_WIDTH
         height := PLATFORM_HEIGHT, initial_x := new_x
         move_speed := 0, move_phase := 0 }, t.2)
  else
    ({ x := (new_x : ℝ), y := new_y, width := PLATFORM_WIDTH
       height := PLATFORM_HEIGHT, initial_x := new_x
       move_speed := 0, move_phase := 0 }, dyr.2)

/-- MarsGym._spawn_platforms: the fixed first platform followed by ten
generated ones (the for-loop over range(10) unrolled), each positioned from
the previously appended platform. -/
def spawnPlatforms (r : NpRandom) : List Platform × NpRandom :=
  let a1 := genPlatform firstPlatform r
  let a2 := genPlatform a1.1 a1.2
  let a3 := genPlatform a2.1 a2.2
  let a4 := genPlatform a3.1 a3.2
  let a5 := genPlatform a4.1 a4.2
  let a6 := genPlatform a5.1 a5.2
  let a7 := genPlatform a6.1 a6.2
  let a8 := genPlatform a7.1 a7.2
  let a9 := genPlatform a8.1 a8.2
  let a10 := genPlatform a9.1 a9.2
  ([firstPlatform, a1.1, a2.1, a3.1, a4.1, a5.1, a6.1, a7.1, a8.1, a9.1,
    a10.1], a10.2)

/-- Full mutable state of a MarsGym instance (the fields assigned in
MarsGym.__init__ plus last_landed_platform_idx, which the Python code first
assigns inside _check_collisions; it is modelled with initial value 0 and is
only read after a landing has set it).  np_seed models self.np_random as
seeded by super().reset(seed=seed): the code never reads it afterwards. -/
structure MarsState where
  player_pos : ℝ × ℝ
  player_vel : ℝ × ℝ
  fuel : ℚ
  is_grounded : Bool
  wind_force : ℚ
  wind_timer : ℕ
  platforms : List Platform
  current_platform_idx : ℕ
  target_platform_idx : ℕ
  steps : ℕ
  prev_distance : ℝ
  total_time : ℚ
  platform_landing_counts : ℕ → ℕ
  last_landed_platform_idx : ℕ
  np_seed : Option ℕ
  max_steps : ℕ

/-- State built by MarsGym.__init__ with the default max_steps of 1000. -/
def mkInit : MarsState :=
  { player_pos := (0, 0), player_vel := (0, 0), fuel := MAX_FUEL
    is_grounded := false, wind_force := 0, wind_timer := 0, platforms := []
    current_platform_idx := 0, target_platform_idx := 1, steps := 0
    prev_distance := 0, total_time := 0, platform_landing_counts := fun _ => 0
    last_landed_platform_idx := 0, np_seed := none, max_steps := 1000 }

/-- MarsGym._get_target_platform: the platform at target_platform_idx, or the
last platform when the index is past the end of the list. -/
def targetPlatform (s : MarsState) : Platform :=
  if s.target_platform_idx < s.platforms.length then
    s.platforms.getD s.target_platform_idx defaultPlatform
  else s.platforms.getLastD defaultPlatform

/-- MarsGym._get_target_velocity: speed times the cosine of the phase for an
oscillating target platform, zero for a static one. -/
def targetVelocity (s : MarsState) : ℝ :=
  let t := targetPlatform s
  if t.move_speed = 0 then 0 else (t.move_speed : ℝ) * Real.cos t.move_phase

/-- Length of a 2d vector, as pygame Vector2.length computes it. -/
def vecLen (v : ℝ × ℝ) : ℝ := Real.sqrt (v.1 ^ 2 + v.2 ^ 2)

/-- Two-argument arctangent with the semantics of math.atan2. -/
def atan2 (y x : ℝ) : ℝ :=
  if 0 < x then Real.arctan (y / x)
  else if x < 0 ∧ 0 ≤ y then Real.arctan (y / x) + Real.pi
  else if x < 0 ∧ y < 0 then Real.arctan (y / x) - Real.pi
  else if x = 0 ∧ 0 < y then Real.pi / 2
  else if x = 0 ∧ y < 0 then -(Real.pi / 2)
  else 0

/-- Observation vector of MarsGym._get_observation, with one field per
component in the documented order. -/
structure Obs where
  rel_x : ℝ
  rel_y : ℝ
  vel_x : ℝ
  vel_y : ℝ
  angle : ℝ
  fuel_frac : ℚ
  wind_x : ℚ
  target_vel_x : ℝ

/-- MarsGym._get_observation. -/
def observe (s : MarsState) : Obs :=
  let t := targetPlatform s
  let target_center_x := t.x + (t.width : ℝ) / 2
  { rel_x := s.player_pos.1 - target_center_x
    rel_y := s.player_pos.2 - (t.y : ℝ)
    vel_x := s.player_vel.1
    vel_y := s.player_vel.2
    angle := if vecLen s.player_vel > 1 / 10 then
        atan2 s.player_vel.2 s.player_vel.1 else 0
    fuel_frac := s.fuel / MAX_FUEL
    wind_x := s.wind_force
    target_vel_x := targetVelocity s }

/-- MarsGym._update_wind: every WIND_CHANGE_INTERVAL frames, replace the wind
scalar by a fresh uniform draw from the global stream and reset the timer. -/
def updateWind (s : MarsState) (g : NpRandom) : MarsState × NpRandom :=
  if WIND_ENABLED = false then (s, g)
  else
    let timer := s.wind_timer + 1
    if timer ≥ WIND_CHANGE_INTERVAL then
      let w := np_uniform (-MAX_WIND_FORCE) MAX_WIND_FORCE g
      ({ s with wind_timer := 0, wind_force := w.1 }, w.2)
    else ({ s with wind_timer := timer }, g)

/-- Per-platform part of MarsGym._update_platforms: advance the oscillation
phase and recompute x from the sine of the phase. -/
def updatePlatform (dt : ℚ) (p : Platform) : Platform :=
  if p.move_speed ≠ 0 then
    let phase := p.move_phase + (dt : ℝ) * ((p.move_speed / PLATFORM_MOVE_RANGE : ℚ) : ℝ)
    { p with move_phase := phase
             x := (p.initial_x : ℝ) + Real.sin phase * (PLATFORM_MOVE_RANGE : ℝ) }
  else p

/-- MarsGym._update_platforms. -/
def updatePlatforms (s : MarsState) (dt : ℚ) : MarsState :=
  if MOVING_PLATFORMS_ENABLED = false then s
  else { s with platforms := s.platforms.map (updatePlatform dt) }

/-- Force vector selected by MarsGym._apply_action for each discrete action;
none for action values that fire no thruster. -/
def thrustForce (action : ℕ) : Option (ℚ × ℚ) :=
  if action = 1 then some (-THRUST_HORIZONTAL, -THRUST_POWER)
  else if action = 2 then some (THRUST_HORIZONTAL, -THRUST_POWER)
  else if action = 3 then some (0, -THRUST_POWER * (3 / 2))
  else none

/-- MarsGym._apply_action: no thrust when out of fuel or grounded; otherwise
add the selected force times dt to the velocity and drain fuel, clamped at 0.
Returns the thrust_applied flag together with the updated state. -/
def applyAction (s : MarsState) (action : ℕ) (dt : ℚ) : Bool × MarsState :=
  if s.fuel ≤ 0 ∨ s.is_grounded = true then (false, s)
  else
    match thrustForce action with
    | none => (false, s)
    | some f =>
      (true,
        { s with
          player_vel := (s.player_vel.1 + (f.1 : ℝ) * (dt : ℝ),
                         s.player_vel.2 + (f.2 : ℝ) * (dt : ℝ))
          fuel := max 0 (s.fuel - FUEL_DRAIN_RATE * dt) })

/-- MarsGym._update_physics: gravity, per-step multiplicative drag on the
horizontal velocity, wind as a direct velocity delta while airborne, terminal
velocity clamp, then position integration with the updated velocity. -/
def physUpdate (s : MarsState) (dt : ℚ) : MarsState :=
  let vy1 := s.player_vel.2 + (GRAVITY : ℝ) * (dt : ℝ)
  let vx1 := s.player_vel.1 * (DRAG : ℝ)
  let vx2 := if WIND_ENABLED = true ∧ s.is_grounded = false then
      vx1 + (s.wind_force : ℝ) * (dt : ℝ) else vx1
  let vy2 := if vy1 > (TERMINAL_VELOCITY : ℝ) then (TERMINAL_VELOCITY : ℝ) else vy1
  { s with player_vel := (vx2, vy2)
           player_pos := (s.player_pos.1 + vx2 * (dt : ℝ),
                          s.player_pos.2 + vy2 * (dt : ℝ)) }

/-- Loop body of MarsGym._check_collisions over enumerate(self.platforms):
the first platform whose box overlaps the player box decides the outcome;
after the loop, falling past GROUND_LEVEL + 200 is a ground crash.  Returns
(landed, crashed, updated state). -/
def collideAux (s : MarsState) : ℕ → List Platform → Bool × Bool × MarsState
  | _, [] =>
    if s.player_pos.2 > ((GROUND_LEVEL + 200 : ℚ) : ℝ) then (false, true, s)
    else (false, false, s)
  | i, p :: rest =>
    let pLeft := s.player_pos.1 - (PLAYER_WIDTH : ℝ) / 2
    let pRight := s.player_pos.1 + (PLAYER_WIDTH : ℝ) / 2
    let pTop := s.player_pos.2 - (PLAYER_HEIGHT : ℝ)
    let pBottom := s.player_pos.2
    let qLeft := p.x
    let qRight := p.x + (p.width : ℝ)
    let qTop := (p.y : ℝ)
    let qBottom := (p.y : ℝ) + (p.height : ℝ)
    if pRight > qLeft ∧ pLeft < qRight ∧ pBottom > qTop ∧ pTop < qBottom then
      let overlap := pBottom - qTop
      if 0 < overlap ∧ overlap < (PLAYER_HEIGHT : ℝ) * (1 / 2) ∧
          qLeft ≤ s.player_pos.1 ∧ s.player_pos.1 ≤ qRight then
        if |s.player_vel.2| ≤ (MAX_LANDING_SPEED_Y : ℝ) ∧
            |s.player_vel.1| ≤ (MAX_LANDING_SPEED_X : ℝ) then
          let target_vel : ℝ :=
            if MOVING_PLATFORMS_ENABLED = true ∧ p.move_speed ≠ 0 then
              (p.move_speed : ℝ) * Real.cos p.move_phase
            else 0
          (true, false,
            { s with
              player_pos := (s.player_pos.1, qTop)
              player_vel := (target_vel, 0)
              is_grounded := true
              fuel := MAX_FUEL
              last_landed_platform_idx := i
              current_platform_idx :=
                if i > s.current_platform_idx then i else s.current_platform_idx
              target_platform_idx :=
                if i > s.current_platform_idx then i + 1 else s.target_platform_idx })
        else (false, true, s)
      else (false, true, s)
    else collideAux s (i + 1) rest

/-- MarsGym._check_collisions. -/
def checkCollisions (s : MarsState) : Bool × Bool × MarsState :=
  collideAux s 0 s.platforms

/-- MarsGym._get_distance_to_target: Euclidean distance from the player to
the target platform's center-top point. -/
def distanceToTarget (s : MarsState) : ℝ :=
  let t := targetPlatform s
  vecLen (s.player_pos.1 - (t.x + (t.width : ℝ) / 2), s.player_pos.2 - (t.y : ℝ))

/-- MarsGym.reset: respawn platforms from the global stream, place the player
on the first platform, refill fuel, zero the counters and the wind state,
recompute prev_distance, empty the landing-count map, then launch the player
with a small upward velocity.  The seed argument only reseeds the unused
instance stream (np_seed); total_time and max_steps are not touched. -/
def resetState (s : MarsState) (seed : Option ℕ) (g : NpRandom) :
    MarsState × NpRandom :=
  let sp := spawnPlatforms g
  let first := sp.1.headI
  let s1 : MarsState :=
    { s with
      np_seed := seed
      platforms := sp.1
      player_pos := (first.x + (first.width : ℝ) / 2, (first.y : ℝ))
      player_vel := (0, 0)
      fuel := MAX_FUEL
      is_grounded := true
      current_platform_idx := 0
      target_platform_idx := 1
      steps := 0
      wind_force := 0
      wind_timer := 0 }
  let s2 := { s1 with prev_distance := distanceToTarget s1
                      platform_landing_counts := fun _ => 0 }
  ({ s2 with is_grounded := false, player_vel := (0, -50) }, sp.2)

/-- Observation returned by MarsGym.reset. -/
def resetObs (s : MarsState) (seed : Option ℕ) (g : NpRandom) : Obs :=
  observe (resetState s seed g).1

/-- Fixed timestep used by MarsGym.step. -/
def DT : ℚ := 1 / 60

/-- First half of MarsGym.step, up to and including the physics update:
step counter and clock, wind update (consuming the global stream), platform
oscillation, thrust application, integration.  Returns the post-physics
state, the advanced global stream, and the thrust_applied flag. -/
def midState (s : MarsState) (g : NpRandom) (action : ℕ) :
    MarsState × NpRandom × Bool :=
  let s0 := { s with steps := s.steps + 1, total_time := s.total_time + DT }
  let wg := updateWind s0 g
  let s2 := updatePlatforms wg.1 DT
  let ta := applyAction s2 action DT
  let s4 := physUpdate ta.2 DT
  (s4, wg.2, ta.1)

/-- Extra reward granted in MarsGym.step for a very low landing speed,
measured on the velocity the landing snap just installed. -/
def softLandingBonus (v : ℝ × ℝ) : ℝ := if vecLen v < 10 then 10 else 0

/-- Terminal crash adjustment of MarsGym.step: the platform penalty only when
the player's x lies strictly inside the target platform's span and the
player's y is within 20 of the target's top; the ground penalty otherwise. -/
def crashAdjust (pos : ℝ × ℝ) (target : Platform) : ℝ :=
  if target.x < pos.1 ∧ pos.1 < target.x + (target.width : ℝ) then
    if |pos.2 - (target.y : ℝ)| < 20 then REWARD_CRASH_PLATFORM
    else REWARD_CRASH_GROUND
  else REWARD_CRASH_GROUND

/-- In-the-pipe shaping bonus of MarsGym.step. -/
def pipeBonus (s : MarsState) (target : Platform) : ℝ :=
  if target.x < s.player_pos.1 ∧ s.player_pos.1 < target.x + (target.width : ℝ) then
    1 / 10 + (if s.player_vel.2 > 0 then 1 / 20 else 0) +
      (if s.player_pos.2 > (target.y : ℝ) - 100 ∧ vecLen s.player_vel < 50 then
        (1 : ℝ) / 10 else 0)
  else 0

/-- Everything MarsGym.step returns. -/
structure StepResult where
  state : MarsState
  rng : NpRandom
  obs : Obs
  reward : ℝ
  terminated : Bool
  truncated : Bool
  score : ℕ
  info_fuel : ℚ
  landed : Bool
  crashed : Bool

/-- Shared tail of MarsGym.step: the out-of-bounds check (which adds the
ground penalty and sets the truncated flag), the step-budget truncation, and
the assembly of the returned observation and info fields. -/
def finishStep (s : MarsState) (g : NpRandom) (reward : ℝ) (terminated : Bool)
    (target_center_x : ℝ) (landed crashed : Bool) : StepResult :=
  let oob := s.player_pos.2 < -1000 ∨ |s.player_pos.1 - target_center_x| > 2000
  let reward2 := reward + (if oob then REWARD_CRASH_GROUND else 0)
  let truncated : Bool := decide oob || decide (s.steps ≥ s.max_steps)
  { state := s, rng := g, obs := observe s, reward := reward2
    terminated := terminated, truncated := truncated
    score := s.current_platform_idx, info_fuel := s.fuel
    landed := landed, crashed := crashed }

/-- Collision handling, terminal rewards, and result assembly of
MarsGym.step (everything after the distance shaping), for the post-shaping
state s5, the advanced global stream, the shaping reward accumulated so far,
and the target platform fetched after the physics update. -/
def stepTail (s5 : MarsState) (g1 : NpRandom) (rewardA : ℝ)
    (target : Platform) : StepResult :=
  let target_center_x : ℝ := target.x + (target.width : ℝ) / 2
  let col := checkCollisions s5
  let landed := col.1
  let crashed := col.2.1
  let s6 := col.2.2
  if crashed then
    finishStep s6 g1 (rewardA + crashAdjust s6.player_pos target) true
      target_center_x landed crashed
  else if landed then
    let idx := s6.last_landed_platform_idx
    let newCount := s6.platform_landing_counts idx + 1
    let s7 := { s6 with platform_landing_counts :=
        fun j => if j = idx then newCount else s6.platform_landing_counts j }
    let rewardL := rewardA + REWARD_LANDING + softLandingBonus s6.player_vel
      - (if newCount > 2 then 50 * ((newCount : ℝ) - 1) else 0)
    if s7.target_platform_idx ≥ s7.platforms.length then
      finishStep s7 g1 (rewardL + 200) true target_center_x landed crashed
    else
      let s8a := { s7 with is_grounded := false
                           player_vel := (s7.player_vel.1, -50) }
      let nt := targetPlatform s8a
      let ntx := nt.x + (nt.width : ℝ) / 2
      let pd := Real.sqrt ((s8a.player_pos.1 - ntx) ^ 2 +
        (s8a.player_pos.2 - (nt.y : ℝ)) ^ 2)
      let s8 := { s8a with prev_distance := pd }
      finishStep s8 g1 rewardL false target_center_x landed crashed
  else
    finishStep s6 g1 rewardA false target_center_x landed crashed

/-- MarsGym.step for one discrete action. -/
def step (s : MarsState) (g : NpRandom) (action : ℕ) : StepResult :=
  let m := midState s g action
  let s4 := m.1
  let g1 := m.2.1
  let thrust := m.2.2
  let target := targetPlatform s4
  let target_center_x : ℝ := target.x + (target.width : ℝ) / 2
  let dist_x := |s4.player_pos.1 - target_center_x|
  let dist_y := |s4.player_pos.2 - (target.y : ℝ)|
  let current_distance := Real.sqrt (dist_x ^ 2 + dist_y ^ 2)
  let rewardA : ℝ := REWARD_TIME_PENALTY + (if thrust then REWARD_FUEL_PENALTY else 0)
      + (s4.prev_distance - current_distance) * 5 + pipeBonus s4 target
  let s5 := { s4 with prev_distance := current_distance }
  stepTail s5 g1 rewardA target

/-- A whole trainer run: fold MarsGym.step over a list of actions, threading
the environment state and the global random stream. -/
def runSteps (s : MarsState) (g : NpRandom) (acts : List ℕ) :
    MarsState × NpRandom :=
  acts.foldl (fun sg a => let r := step sg.1 sg.2 a; (r.state, r.rng)) (s, g)

/-- Model of the module-level stream of the python random module, used by the
interactive host (entities.py): one cursor, one raw integer value per draw. -/
structure PyRandom where
  vals : ℕ → ℤ
  cursor : ℕ

/-- Model of random.randint(low, high): a value in [low, high], both ends
included. -/
def py_randint (low high : ℤ) (r : PyRandom) : ℤ × PyRandom :=
  (low + (r.vals r.cursor) % (high - low + 1), { r with cursor := r.cursor + 1 })

/-- Platform record of entities.py (the interactive host): static, with a
generation index and decorative rocks. -/
structure GPlatform where
  x : ℚ
  y : ℚ
  width : ℚ
  height : ℚ
  base_height : ℚ
  index : ℕ
  rocks : List (ℚ × ℚ × ℤ)
deriving DecidableEq

/-- Rock-placement loop of Platform._generate_rocks: each rock consumes three
integer draws (horizontal offset, vertical offset, size). -/
def genRocks : ℕ → ℚ → ℚ → PyRandom → List (ℚ × ℚ × ℤ) × PyRandom
  | 0, _, _, r => ([], r)
  | n + 1, x, y, r =>
    let rx := py_randint (-100) (100 + 100) r
    let ry := py_randint 0 30 rx.2
    let rs := py_randint 5 15 ry.2
    let rest := genRocks n x y rs.2
    ((x + (rx.1 : ℚ), y + (ry.1 : ℚ), rs.1) :: rest.1, rest.2)

/-- Platform.__init__ of entities.py: fixed geometry plus a random number
(3 to 7) of decorative rocks. -/
def mkGPlatform (x y : ℚ) (index : ℕ) (r : PyRandom) : GPlatform × PyRandom :=
  let n := py_randint 3 7 r
  let rk := genRocks n.1.toNat x y n.2
  ({ x := x, y := y, width := 100, height := 20, base_height := 40
     index := index, rocks := rk.1 }, rk.2)

/-- PlatformManager state of entities.py: the active platform list and the
next generation index. -/
structure PlatformManager where
  platforms : List GPlatform
  next_index : ℕ

/-- PlatformManager.spawn_next_platform: no effect on an empty list
(the early return); otherwise draw the two spacings, position the new
platform after the last one with the vertical clamp, and append it. -/
def spawnNext (pm : PlatformManager) (r : PyRandom) : PlatformManager × PyRandom :=
  match pm.platforms.getLast? with
  | none => (pm, r)
  | some lastP =>
    let dx := py_randint 300 600 r
    let dy := py_randint (-150) 100 dx.2
    let new_x := lastP.x + lastP.width + (dx.1 : ℚ)
    let new_y := max 200 (min GROUND_LEVEL (lastP.y + (dy.1 : ℚ)))
    let pl := mkGPlatform new_x new_y pm.next_index dy.2
    ({ platforms := pm.platforms ++ [pl.1], next_index := pm.next_index + 1 },
      pl.2)

/-- PlatformManager.cleanup_old_platforms: drop platforms far behind the
camera; a pure filter that generates nothing. -/
def cleanupOld (pm : PlatformManager) (camera_x : ℚ) : PlatformManager :=
  { pm with platforms :=
      pm.platforms.filter (fun p => decide (p.x + p.width > camera_x - SCREEN_WIDTH)) }

/-- Top-up loop of Game.update in main.py: while the active list holds fewer
than current_platform_index + 5 platforms, spawn the next one.  The Python
loop never terminates on an empty list (spawn_next_platform returns without
appending), so the model guards on nonemptiness, which the manager
constructor establishes and spawning preserves. -/
def gameTopUp (pm : PlatformManager) (r : PyRandom) (current : ℕ) :
    PlatformManager × PyRandom :=
  if h : pm.platforms.length < current + 5 ∧ pm.platforms ≠ [] then
    let pr := spawnNext pm r
    gameTopUp pr.1 pr.2 current
  else (pm, r)
termination_by current + 5 - pm.platforms.length
decreasing_by
  have h2 : (spawnNext pm r).1.platforms.length = pm.platforms.length + 1 := by
    rw [spawnNext]
    rcases hl : pm.platforms.getLast? with _ | p
    · exact absurd (List.getLast?_eq_none_iff.mp hl) h.2
    · simp
  rw [h2]
  omega

/-- PlatformManager.__init__ plus spawn_initial_platform: the fixed platform
0 at the baseline position followed by three pre-spawned platforms. -/
def initialManager (r : PyRandom) : PlatformManager × PyRandom :=
  let p0 := mkGPlatform (SCREEN_WIDTH / 2 - PLATFORM_WIDTH / 2) GROUND_LEVEL 0 r
  let pm1 : PlatformManager := { platforms := [p0.1], next_index := 1 }
  let a := spawnNext pm1 p0.2
  let b := spawnNext a.1 a.2
  let c := spawnNext b.1 b.2
  (c.1, c.2)

/-- Iterated fixed-step physics update (N calls of MarsGym._update_physics
with the same dt and no thrust in between). -/
def physIter : ℕ → ℚ → MarsState → MarsState
  | 0, _, s => s
  | n + 1, dt, s => physIter n dt (physUpdate s dt)

/-- First platform, in generation order, whose box overlaps the player box
(the same overlap test as the loop in MarsGym._check_collisions), together
with its index. -/
def firstOverlap (s : MarsState) : ℕ → List Platform → Option (ℕ × Platform)
  | _, [] => none
  | i, p :: rest =>
    if s.player_pos.1 + (PLAYER_WIDTH : ℝ) / 2 > p.x ∧
        s.player_pos.1 - (PLAYER_WIDTH : ℝ) / 2 < p.x + (p.width : ℝ) ∧
        s.player_pos.2 > (p.y : ℝ) ∧
        s.player_pos.2 - (PLAYER_HEIGHT : ℝ) < (p.y : ℝ) + (p.height : ℝ) then
      some (i, p)
    else firstOverlap s (i + 1) rest

/-- Target platform step uses after the physics update (line: target =
self._get_target_platform() in MarsGym.step). -/
def stepTarget (s : MarsState) (g : NpRandom) (action : ℕ) : Platform :=
  targetPlatform (midState s g action).1

/-- Center x of the target platform as used both by the distance shaping and
by the bounds check of MarsGym.step. -/
def stepTargetCenterX (s : MarsState) (g : NpRandom) (action : ℕ) : ℝ :=
  (stepTarget s g action).x + ((stepTarget s g action).width : ℝ) / 2

/-- Distance to the moving target computed in MarsGym.step. -/
def stepDist (s : MarsState) (g : NpRandom) (action : ℕ) : ℝ :=
  Real.sqrt (|(midState s g action).1.player_pos.1 - stepTargetCenterX s g action| ^ 2 +
    |(midState s g action).1.player_pos.2 - ((stepTarget s g action).y : ℝ)| ^ 2)

/-- Non-terminal part of the reward of MarsGym.step: time penalty, fuel-use
penalty, distance shaping and the in-the-pipe bonus. -/
def rewardBase (s : MarsState) (g : NpRandom) (action : ℕ) : ℝ :=
  REWARD_TIME_PENALTY +
    (if (midState s g action).2.2 = true then REWARD_FUEL_PENALTY else 0) +
    ((midState s g action).1.prev_distance - stepDist s g action) * 5 +
    pipeBonus (midState s g action).1 (stepTarget s g action)

/-- Ground-penalty term that the out-of-bounds check of MarsGym.step adds on
top of everything else. -/
def oobAdd (s : MarsState) (g : NpRandom) (action : ℕ) : ℝ :=
  if (step s g action).state.player_pos.2 < -1000 ∨
      |(step s g action).state.player_pos.1 - stepTargetCenterX s g action| > 2000 then
    REWARD_CRASH_GROUND
  else 0

/-- State with the recorded reset seed forgotten, to compare the effect of
two different seed arguments on everything else. -/
def eraseSeed (s : MarsState) : MarsState := { s with np_seed := none }

/-- Global numpy stream whose raw draws are all zero. -/
def gZero : NpRandom := { intVal := fun _ => 0, floatVal := fun _ => 0, cursor := 0 }

/-- Global numpy stream identical to gZero except for the very first raw
integer draw. -/
def gOne : NpRandom :=
  { intVal := fun k => if k = 0 then 1 else 0, floatVal := fun _ => 0, cursor := 0 }

/-- Concrete static platform at the spawn position (the first platform the
environment generates). -/
def testPlat0 : Platform :=
  { x := 590, y := 620, width := 100, height := 20, initial_x := 590
    move_speed := 0, move_phase := 0 }

/-- Concrete static platform used as the target in the crash scenarios. -/
def testPlat1 : Platform :=
  { x := 990, y := 470, width := 100, height := 20, initial_x := 990
    move_speed := 0, move_phase := 0 }

/-- Concrete pre-step state that lands on platform 0 during the next step:
the player hovers just above the platform top, falling slowly. -/
def sLand : MarsState :=
  { mkInit with player_pos := (640, 621), platforms := [testPlat0] }

/-- Concrete pre-step state far above the world: after the next step the
player's y is below -1000, triggering the out-of-bounds check with no
platform or ground collision. -/
def sOob : MarsState :=
  { mkInit with player_pos := (640, -5000), platforms := [testPlat0] }

/-- Concrete pre-step state that crashes on the target platform during the
next step with a vertical-speed violation, feet 22 below the platform top:
inside the landing window but outside the 20-pixel band of the platform
crash penalty. -/
def sCrashG : MarsState :=
  { mkInit with player_pos := (1040, 4381 / 9), player_vel := (0, 300)
                platforms := [testPlat0, testPlat1] }

/-- Concrete pre-step state that crashes on the target platform during the
next step with a vertical-speed violation, feet 10 below the platform top:
inside the 20-pixel band, drawing the platform crash penalty. -/
def sCrashP : MarsState :=
  { mkInit with player_pos := (1040, 4273 / 9), player_vel := (0, 300)
                platforms := [testPlat0, testPlat1] }

/-- Concrete state with horizontal velocity 100 and no wind, for the drag
iteration witness. -/
def sDragStart : MarsState := { mkInit with player_vel := (100, 0) }

/-- Concrete airborne state with fuel 5, for the fuel-clamp witness. -/
def sFuel5 : MarsState := { mkInit with fuel := 5 }

/-- Concrete post-physics state sitting in the landing window of platform 0
with a small downward velocity, fed directly to the collision classifier. -/
def sLandMid : MarsState :=
  { mkInit with player_pos := (640, 5591 / 9), player_vel := (0, 40 / 3)
                platforms := [testPlat0] }

/-- Concrete interactive-host platform, without rocks, for the top-up
witness. -/
def gp0 : GPlatform :=
  { x := 590, y := 620, width := 100, height := 20, base_height := 40
    index := 0, rocks := [] }

/-- Concrete one-platform manager for the top-up witness. -/
def pmTest : PlatformManager := { platforms := [gp0], next_index := 1 }

/-- Python-module random stream whose raw draws are all zero. -/
def pyZero : PyRandom := { vals := fun _ => 0, cursor := 0 }

/-
  Theorems.  Helper lemmas first, then one theorem per claim (with a witness
  or a counterexample where required).
-/

/-- Wind update leaves fuel unchanged. -/
theorem updateWind_fuel (s : MarsState) (g : NpRandom) :
    ((updateWind s g).1).fuel = s.fuel := by
  rw [updateWind]; dsimp only; split_ifs <;> rfl

/-- Wind update leaves the landing-count map unchanged. -/
theorem updateWind_counts (s : MarsState) (g : NpRandom) :
    ((updateWind s g).1).platform_landing_counts = s.platform_landing_counts := by
  rw [updateWind]; dsimp only; split_ifs <;> rfl

/-- Platform oscillation leaves fuel unchanged. -/
theorem updatePlatforms_fuel (s : MarsState) (dt : ℚ) :
    (updatePlatforms s dt).fuel = s.fuel := by
  rw [updatePlatforms]; split_ifs <;> rfl

/-- Platform oscillation leaves the landing-count map unchanged. -/
theorem updatePlatforms_counts (s : MarsState) (dt : ℚ) :
    (updatePlatforms s dt).platform_landing_counts = s.platform_landing_counts := by
  rw [updatePlatforms]; split_ifs <;> rfl

/-- The actuator leaves the landing-count map unchanged. -/
theorem applyAction_counts (s : MarsState) (a : ℕ) (dt : ℚ) :
    ((applyAction s a dt).2).platform_landing_counts = s.platform_landing_counts := by
  rw [applyAction]; split_ifs
  · rfl
  · cases thrustForce a <;> rfl

/-- The physics update leaves fuel unchanged. -/
theorem physUpdate_fuel (s : MarsState) (dt : ℚ) :
    (physUpdate s dt).fuel = s.fuel := rfl

/-- The physics update leaves the landing-count map unchanged. -/
theorem physUpdate_counts (s : MarsState) (dt : ℚ) :
    (physUpdate s dt).platform_landing_counts = s.platform_landing_counts := rfl

/-- The actuator keeps fuel within bounds for a nonnegative dt: drain is
clamped at zero and fuel never increases. -/
theorem applyAction_fuel_bounds (s : MarsState) (a : ℕ) (dt : ℚ) (hdt : 0 ≤ dt)
    (h0 : 0 ≤ s.fuel) (h1 : s.fuel ≤ MAX_FUEL) :
    0 ≤ ((applyAction s a dt).2).fuel ∧ ((applyAction s a dt).2).fuel ≤ MAX_FUEL := by
  rw [applyAction]; split_ifs
  · exact ⟨h0, h1⟩
  · cases thrustForce a with
    | none => exact ⟨h0, h1⟩
    | some f =>
      refine ⟨le_max_left _ _, max_le ?_ ?_⟩
      · norm_num [MAX_FUEL]
      · have : 0 ≤ FUEL_DRAIN_RATE * dt := by
          have : (0 : ℚ) ≤ FUEL_DRAIN_RATE := by norm_num [FUEL_DRAIN_RATE]
          positivity
        linarith

/-- The collision pass either refuels to MAX_FUEL (on landing) or leaves fuel
unchanged. -/
theorem collideAux_fuel (s : MarsState) : ∀ (i : ℕ) (ps : List Platform),
    ((collideAux s i ps).2.2).fuel = MAX_FUEL ∨ ((collideAux s i ps).2.2).fuel = s.fuel := by
  intro i ps
  induction ps generalizing i with
  | nil => rw [collideAux]; split_ifs <;> exact Or.inr rfl
  | cons p rest ih =>
    rw [collideAux]; dsimp only
    split_ifs <;> first | exact Or.inl rfl | exact Or.inr rfl | exact ih (i + 1)

/-- The collision pass leaves the landing-count map unchanged (counting
happens later, inside step). -/
theorem collideAux_counts (s : MarsState) : ∀ (i : ℕ) (ps : List Platform),
    ((collideAux s i ps).2.2).platform_landing_counts = s.platform_landing_counts := by
  intro i ps
  induction ps generalizing i with
  | nil => rw [collideAux]; split_ifs <;> rfl
  | cons p rest ih =>
    rw [collideAux]; dsimp only
    split_ifs <;> first | rfl | exact ih (i + 1)

/-- Fuel bounds are preserved through the first half of step. -/
theorem midState_fuel_bounds (s : MarsState) (g : NpRandom) (a : ℕ)
    (h0 : 0 ≤ s.fuel) (h1 : s.fuel ≤ MAX_FUEL) :
    0 ≤ ((midState s g a).1).fuel ∧ ((midState s g a).1).fuel ≤ MAX_FUEL := by
  have hDT : (0 : ℚ) ≤ DT := by norm_num [DT]
  simp only [midState, physUpdate_fuel]
  apply applyAction_fuel_bounds _ _ _ hDT
  · rw [updatePlatforms_fuel, updateWind_fuel]; exact h0
  · rw [updatePlatforms_fuel, updateWind_fuel]; exact h1

/-- The landing-count map entering the collision pass is the one from the
incoming state. -/
theorem midState_counts (s : MarsState) (g : NpRandom) (a : ℕ) :
    ((midState s g a).1).platform_landing_counts = s.platform_landing_counts := by
  simp only [midState, physUpdate_counts, applyAction_counts,
    updatePlatforms_counts, updateWind_counts]

/-- The state in the result of the collision tail carries the fuel coming
out of the collision pass. -/
theorem stepTail_state_fuel (m : MarsState) (g : NpRandom) (r : ℝ)
    (t : Platform) :
    ((stepTail m g r t).state).fuel = ((checkCollisions m).2.2).fuel := by
  simp only [stepTail, finishStep]
  split_ifs <;> rfl

/-- The fuel in the state returned by step is the fuel coming out of the
collision pass on the post-shaping state. -/
theorem step_state_fuel (s : MarsState) (g : NpRandom) (a : ℕ) :
    ((step s g a).state).fuel =
      ((checkCollisions { (midState s g a).1 with
          prev_distance := stepDist s g a }).2.2).fuel := by
  simp only [step, stepDist, stepTargetCenterX, stepTarget]
  exact stepTail_state_fuel _ _ _ _

/-- One full step keeps fuel within bounds. -/
theorem step_fuel_bounds (s : MarsState) (g : NpRandom) (a : ℕ)
    (h0 : 0 ≤ s.fuel) (h1 : s.fuel ≤ MAX_FUEL) :
    0 ≤ ((step s g a).state).fuel ∧ ((step s g a).state).fuel ≤ MAX_FUEL := by
  have hm := midState_fuel_bounds s g a h0 h1
  rw [step_state_fuel]
  rcases collideAux_fuel { (midState s g a).1 with prev_distance := stepDist s g a }
      0 ({ (midState s g a).1 with prev_distance := stepDist s g a }).platforms
    with h | h <;>
    rw [checkCollisions, h]
  · constructor <;> norm_num [MAX_FUEL]
  · exact hm

/-- Reset always refills the tank. -/
theorem resetState_fuel (s : MarsState) (seed : Option ℕ) (g : NpRandom) :
    ((resetState s seed g).1).fuel = MAX_FUEL := rfl

/-- Folding step over any action list preserves the fuel bounds. -/
theorem runSteps_fuel_bounds (acts : List ℕ) : ∀ (s : MarsState) (g : NpRandom),
    0 ≤ s.fuel → s.fuel ≤ MAX_FUEL →
    0 ≤ ((runSteps s g acts).1).fuel ∧ ((runSteps s g acts).1).fuel ≤ MAX_FUEL := by
  induction acts with
  | nil => intro s g h0 h1; exact ⟨h0, h1⟩
  | cons a t ih =>
    intro s g h0 h1
    have hs := step_fuel_bounds s g a h0 h1
    simpa [runSteps, List.foldl_cons] using
      ih (step s g a).state (step s g a).rng hs.1 hs.2

/-- C6: for every reachable sequence of reset and step calls with any
actions, the fuel value stays within 0 and MAX_FUEL: the thrust drain is
clamped at 0 and refuelling on landing sets fuel to exactly MAX_FUEL. -/
theorem C6_fuel_invariant (s0 : MarsState) (seed : Option ℕ) (g : NpRandom)
    (acts : List ℕ) :
    0 ≤ ((runSteps (resetState s0 seed g).1 (resetState s0 seed g).2 acts).1).fuel ∧
    ((runSteps (resetState s0 seed g).1 (resetState s0 seed g).2 acts).1).fuel ≤
      MAX_FUEL := by
  apply runSteps_fuel_bounds
  · rw [resetState_fuel]; norm_num [MAX_FUEL]
  · rw [resetState_fuel]

/-- C7: with zero thrust (no actuator call between physics updates) and zero
wind force, the horizontal velocity after N physics steps is the initial one
multiplied by DRAG to the power N, for every step size dt: drag acts as a
per-step multiplicative factor, not as an elapsed-time decay. -/
theorem C7_drag_per_step (s : MarsState) (dt : ℚ) (n : ℕ)
    (hw : s.wind_force = 0) :
    ((physIter n dt s).player_vel).1 = (s.player_vel).1 * (DRAG : ℝ) ^ n := by
  induction n generalizing s with
  | zero => simp [physIter]
  | succ k ih =>
    have hw2 : (physUpdate s dt).wind_force = 0 := by
      simpa [physUpdate] using hw
    have hx : ((physUpdate s dt).player_vel).1 = (s.player_vel).1 * (DRAG : ℝ) := by
      simp [physUpdate, hw]
    calc ((physIter (k + 1) dt s).player_vel).1
        = ((physIter k dt (physUpdate s dt)).player_vel).1 := rfl
      _ = ((physUpdate s dt).player_vel).1 * (DRAG : ℝ) ^ k := ih _ hw2
      _ = (s.player_vel).1 * (DRAG : ℝ) ^ (k + 1) := by rw [hx]; ring

/-- Witness for C7 at a concrete state, horizontal velocity 100, three steps
of size one half. -/
theorem C7_witness : sDragStart.wind_force = 0 ∧
    ((physIter 3 (1 / 2) sDragStart).player_vel).1 = 100 * (DRAG : ℝ) ^ 3 :=
  ⟨rfl, by
    have h := C7_drag_per_step sDragStart (1 / 2) 3 rfl
    simpa [sDragStart, mkInit] using h⟩

/-- C8: the actuator maps action 1 to force (-THRUST_HORIZONTAL,
-THRUST_POWER), action 2 to (THRUST_HORIZONTAL, -THRUST_POWER), action 3 to
(0, -(3/2) THRUST_POWER) and action 0 to no force; it is suppressed entirely
when fuel is not positive or the vehicle is grounded; when thrust fires,
fuel drops by FUEL_DRAIN_RATE times dt, clamped at zero. -/
theorem C8_actuator_mapping (s : MarsState) (dt : ℚ) :
    (∀ a, s.fuel ≤ 0 ∨ s.is_grounded = true → applyAction s a dt = (false, s)) ∧
    (s.fuel > 0 → s.is_grounded = false →
      applyAction s 0 dt = (false, s) ∧
      ((applyAction s 1 dt).1 = true ∧
        (((applyAction s 1 dt).2).player_vel).1 =
          (s.player_vel).1 - (THRUST_HORIZONTAL : ℝ) * (dt : ℝ) ∧
        (((applyAction s 1 dt).2).player_vel).2 =
          (s.player_vel).2 - (THRUST_POWER : ℝ) * (dt : ℝ)) ∧
      ((applyAction s 2 dt).1 = true ∧
        (((applyAction s 2 dt).2).player_vel).1 =
          (s.player_vel).1 + (THRUST_HORIZONTAL : ℝ) * (dt : ℝ) ∧
        (((applyAction s 2 dt).2).player_vel).2 =
          (s.player_vel).2 - (THRUST_POWER : ℝ) * (dt : ℝ)) ∧
      ((applyAction s 3 dt).1 = true ∧
        (((applyAction s 3 dt).2).player_vel).1 = (s.player_vel).1 ∧
        (((applyAction s 3 dt).2).player_vel).2 =
          (s.player_vel).2 - (3 / 2) * (THRUST_POWER : ℝ) * (dt : ℝ)) ∧
      (∀ a, a = 1 ∨ a = 2 ∨ a = 3 →
        ((applyAction s a dt).2).fuel = max 0 (s.fuel - FUEL_DRAIN_RATE * dt))) := by
  constructor
  · intro a h
    rw [applyAction, if_pos h]
  · intro hf hg
    have hcond : ¬(s.fuel ≤ 0 ∨ s.is_grounded = true) := by
      push_neg
      refine ⟨hf, ?_⟩
      simp [hg]
    have hfuel : ∀ a, a = 1 ∨ a = 2 ∨ a = 3 →
        ((applyAction s a dt).2).fuel = max 0 (s.fuel - FUEL_DRAIN_RATE * dt) := by
      intro a ha
      rcases ha with rfl | rfl | rfl <;>
        simp [applyAction, thrustForce, hcond]
    refine ⟨?_, ⟨?_, ?_, ?_⟩, ⟨?_, ?_, ?_⟩, ⟨?_, ?_, ?_⟩, hfuel⟩
    all_goals
      simp only [applyAction, thrustForce, if_neg hcond]
    all_goals
      first
        | (norm_num; push_cast; ring)
        | norm_num

/-- Witness for C8 in the fuel-clamp scenario of the claim: fuel 5, per-step
drain 10 (greater than 5), action Hover: thrust still applies and fuel comes
out exactly 0. -/
theorem C8_witness : sFuel5.fuel = 5 ∧ FUEL_DRAIN_RATE * (1 / 5) = 10 ∧
    ((applyAction sFuel5 3 (1 / 5)).1 = true ∧
      ((applyAction sFuel5 3 (1 / 5)).2).fuel = 0) := by
  have h := (C8_actuator_mapping sFuel5 (1 / 5)).2
    (by norm_num [sFuel5, mkInit]) rfl
  refine ⟨rfl, by norm_num [FUEL_DRAIN_RATE], h.2.2.2.1.1, ?_⟩
  have hf := h.2.2.2.2 3 (by tauto)
  rw [hf]
  have : sFuel5.fuel - FUEL_DRAIN_RATE * (1 / 5) = -5 := by
    norm_num [sFuel5, mkInit, FUEL_DRAIN_RATE]
  rw [this]
  exact max_eq_left (by norm_num)

/-- A landed outcome of the collision loop pins down, for the first platform
in generation order whose box overlaps the player box, both the landing
window and the landing-speed bounds. -/
theorem collideAux_landed_conditions (s : MarsState) : ∀ (ps : List Platform)
    (i : ℕ), (collideAux s i ps).1 = true →
    ∃ j p, firstOverlap s i ps = some (j, p) ∧
      0 < (s.player_pos).2 - (p.y : ℝ) ∧
      (s.player_pos).2 - (p.y : ℝ) < (PLAYER_HEIGHT : ℝ) * (1 / 2) ∧
      p.x ≤ (s.player_pos).1 ∧ (s.player_pos).1 ≤ p.x + (p.width : ℝ) ∧
      |(s.player_vel).2| ≤ (MAX_LANDING_SPEED_Y : ℝ) ∧
      |(s.player_vel).1| ≤ (MAX_LANDING_SPEED_X : ℝ) := by
  intro ps
  induction ps with
  | nil =>
    intro i h
    rw [collideAux] at h
    split_ifs at h <;> simp at h
  | cons p rest ih =>
    intro i h
    rw [collideAux] at h
    dsimp only at h
    by_cases hov : (s.player_pos).1 + (PLAYER_WIDTH : ℝ) / 2 > p.x ∧
        (s.player_pos).1 - (PLAYER_WIDTH : ℝ) / 2 < p.x + (p.width : ℝ) ∧
        (s.player_pos).2 > (p.y : ℝ) ∧
        (s.player_pos).2 - (PLAYER_HEIGHT : ℝ) < (p.y : ℝ) + (p.height : ℝ)
    · rw [if_pos hov] at h
      by_cases hwin : 0 < (s.player_pos).2 - (p.y : ℝ) ∧
          (s.player_pos).2 - (p.y : ℝ) < (PLAYER_HEIGHT : ℝ) * (1 / 2) ∧
          p.x ≤ (s.player_pos).1 ∧ (s.player_pos).1 ≤ p.x + (p.width : ℝ)
      · rw [if_pos hwin] at h
        by_cases hspd : |(s.player_vel).2| ≤ (MAX_LANDING_SPEED_Y : ℝ) ∧
            |(s.player_vel).1| ≤ (MAX_LANDING_SPEED_X : ℝ)
        · refine ⟨i, p, ?_, hwin.1, hwin.2.1, hwin.2.2.1, hwin.2.2.2,
            hspd.1, hspd.2⟩
          rw [firstOverlap, if_pos hov]
        · rw [if_neg hspd] at h
          simp at h
      · rw [if_neg hwin] at h
        simp at h
    · rw [if_neg hov] at h
      obtain ⟨j, q, hfo, hc⟩ := ih (i + 1) h
      refine ⟨j, q, ?_, hc⟩
      rw [firstOverlap, if_neg hov]
      exact hfo

/-- C4: a step is classified Landed only if, for the first overlapping
platform in generation order, simultaneously the vertical overlap lies
strictly between 0 and half the player height, the player's horizontal
center lies within the platform's span, and both landing-speed bounds
hold. -/
theorem C4_landed_requires_window_and_speeds (s : MarsState)
    (h : (checkCollisions s).1 = true) :
    ∃ i p, firstOverlap s 0 s.platforms = some (i, p) ∧
      0 < (s.player_pos).2 - (p.y : ℝ) ∧
      (s.player_pos).2 - (p.y : ℝ) < (PLAYER_HEIGHT : ℝ) * (1 / 2) ∧
      p.x ≤ (s.player_pos).1 ∧ (s.player_pos).1 ≤ p.x + (p.width : ℝ) ∧
      |(s.player_vel).2| ≤ (MAX_LANDING_SPEED_Y : ℝ) ∧
      |(s.player_vel).1| ≤ (MAX_LANDING_SPEED_X : ℝ) :=
  collideAux_landed_conditions s s.platforms 0 h

/-- The concrete landing-window state really is classified Landed. -/
theorem checkCollisions_sLandMid : (checkCollisions sLandMid).1 = true := by
  norm_num [checkCollisions, collideAux, sLandMid, mkInit, testPlat0,
    PLAYER_WIDTH, PLAYER_HEIGHT, MAX_LANDING_SPEED_X, MAX_LANDING_SPEED_Y,
    GROUND_LEVEL, MAX_FUEL, MOVING_PLATFORMS_ENABLED, abs_of_nonneg,
    abs_of_nonpos]

/-- The concrete landing-window state overlaps platform 0 first. -/
theorem firstOverlap_sLandMid :
    firstOverlap sLandMid 0 sLandMid.platforms = some (0, testPlat0) := by
  norm_num [firstOverlap, sLandMid, mkInit, testPlat0, PLAYER_WIDTH,
    PLAYER_HEIGHT]

/-- Witness for C4: a concrete state classified Landed, whose first
overlapping platform satisfies the window and speed conditions. -/
theorem C4_witness : (checkCollisions sLandMid).1 = true ∧
    ∃ i p, firstOverlap sLandMid 0 sLandMid.platforms = some (i, p) ∧
      0 < (sLandMid.player_pos).2 - (p.y : ℝ) ∧
      (sLandMid.player_pos).2 - (p.y : ℝ) < (PLAYER_HEIGHT : ℝ) * (1 / 2) ∧
      p.x ≤ (sLandMid.player_pos).1 ∧
      (sLandMid.player_pos).1 ≤ p.x + (p.width : ℝ) ∧
      |(sLandMid.player_vel).2| ≤ (MAX_LANDING_SPEED_Y : ℝ) ∧
      |(sLandMid.player_vel).1| ≤ (MAX_LANDING_SPEED_X : ℝ) :=
  ⟨checkCollisions_sLandMid,
    C4_landed_requires_window_and_speeds sLandMid checkCollisions_sLandMid⟩

/-- A landed outcome of the collision loop also pins down the landed platform
index and the snapped velocity: the platform's instantaneous velocity for an
oscillating platform, zero for a static one. -/
theorem collideAux_landed_velocity (s : MarsState) : ∀ (ps : List Platform)
    (i : ℕ), (collideAux s i ps).1 = true →
    ∃ j p, firstOverlap s i ps = some (j, p) ∧
      ((collideAux s i ps).2.2).last_landed_platform_idx = j ∧
      ((collideAux s i ps).2.2).player_vel =
        ((if MOVING_PLATFORMS_ENABLED = true ∧ p.move_speed ≠ 0 then
          (p.move_speed : ℝ) * Real.cos p.move_phase else 0), 0) := by
  intro ps
  induction ps with
  | nil =>
    intro i h
    rw [collideAux] at h
    split_ifs at h <;> simp at h
  | cons p rest ih =>
    intro i h
    rw [collideAux] at h
    rw [collideAux]
    dsimp only at h ⊢
    by_cases hov : (s.player_pos).1 + (PLAYER_WIDTH : ℝ) / 2 > p.x ∧
        (s.player_pos).1 - (PLAYER_WIDTH : ℝ) / 2 < p.x + (p.width : ℝ) ∧
        (s.player_pos).2 > (p.y : ℝ) ∧
        (s.player_pos).2 - (PLAYER_HEIGHT : ℝ) < (p.y : ℝ) + (p.height : ℝ)
    · rw [if_pos hov] at h ⊢
      by_cases hwin : 0 < (s.player_pos).2 - (p.y : ℝ) ∧
          (s.player_pos).2 - (p.y : ℝ) < (PLAYER_HEIGHT : ℝ) * (1 / 2) ∧
          p.x ≤ (s.player_pos).1 ∧ (s.player_pos).1 ≤ p.x + (p.width : ℝ)
      · rw [if_pos hwin] at h ⊢
        by_cases hspd : |(s.player_vel).2| ≤ (MAX_LANDING_SPEED_Y : ℝ) ∧
            |(s.player_vel).1| ≤ (MAX_LANDING_SPEED_X : ℝ)
        · rw [if_pos hspd]
          refine ⟨i, p, ?_, rfl, rfl⟩
          rw [firstOverlap, if_pos hov]
        · rw [if_neg hspd] at h
          simp at h
      · rw [if_neg hwin] at h
        simp at h
    · rw [if_neg hov] at h ⊢
      obtain ⟨j, q, hfo, hc⟩ := ih (i + 1) h
      refine ⟨j, q, ?_, hc⟩
      rw [firstOverlap, if_neg hov]
      exact hfo

/-- C10: the soft-landing bonus is computed from the velocity the landing
snap just installed, so every landing whose first-overlap platform is static
measures landing speed 0 and collects the bonus of 10, whatever the speed
before touchdown was (step adds softLandingBonus of exactly this snapped
velocity to the reward). -/
theorem C10_static_landing_soft_bonus (s : MarsState)
    (h : (checkCollisions s).1 = true)
    (hstat : ∀ i p, firstOverlap s 0 s.platforms = some (i, p) →
      p.move_speed = 0) :
    ((checkCollisions s).2.2).player_vel = (0, 0) ∧
    softLandingBonus (((checkCollisions s).2.2).player_vel) = 10 := by
  obtain ⟨j, p, hfo, hll, hv⟩ :=
    collideAux_landed_velocity s s.platforms 0 h
  have hst := hstat j p hfo
  rw [checkCollisions, hv]
  have hz : (if MOVING_PLATFORMS_ENABLED = true ∧ p.move_speed ≠ 0 then
      (p.move_speed : ℝ) * Real.cos p.move_phase else 0) = 0 := by
    rw [if_neg]
    intro hc
    exact hc.2 hst
  rw [hz]
  refine ⟨rfl, ?_⟩
  simp [softLandingBonus, vecLen]

/-- Witness for C10: the concrete landing state comes in faster than the
bonus threshold, lands on the static platform 0, and still gets landing
speed 0 and the bonus of 10. -/
theorem C10_witness : |(sLandMid.player_vel).2| > 10 ∧
    ((checkCollisions sLandMid).2.2).player_vel = (0, 0) ∧
    softLandingBonus (((checkCollisions sLandMid).2.2).player_vel) = 10 := by
  have hstat : ∀ i p, firstOverlap sLandMid 0 sLandMid.platforms = some (i, p) →
      p.move_speed = 0 := by
    intro i p hp
    rw [firstOverlap_sLandMid] at hp
    simp only [Option.some.injEq, Prod.mk.injEq] at hp
    rw [← hp.2]
    rfl
  have h := C10_static_landing_soft_bonus sLandMid checkCollisions_sLandMid hstat
  refine ⟨?_, h⟩
  norm_num [sLandMid, mkInit, abs_of_nonneg]

/-- The collision loop never reports Landed and Crashed at once. -/
theorem collideAux_not_both (s : MarsState) : ∀ (ps : List Platform) (i : ℕ),
    ¬((collideAux s i ps).1 = true ∧ (collideAux s i ps).2.1 = true) := by
  intro ps
  induction ps with
  | nil =>
    intro i h
    rw [collideAux] at h
    split_ifs at h <;> simp at h
  | cons p rest ih =>
    intro i h
    rw [collideAux] at h
    dsimp only at h
    split_ifs at h <;>
      first
        | exact h.1
        | exact (by simpa using h.1)
        | exact (by simpa using h.2)
        | exact ih (i + 1) h

/-- The collision tail of step, when it lands, increments the landing count
of the landed platform by exactly one relative to the incoming map. -/
theorem stepTail_landed_counts (m : MarsState) (g : NpRandom) (r : ℝ)
    (t : Platform) (h : (stepTail m g r t).landed = true) :
    ((stepTail m g r t).state).platform_landing_counts
        (((stepTail m g r t).state).last_landed_platform_idx) =
      m.platform_landing_counts
        (((stepTail m g r t).state).last_landed_platform_idx) + 1 := by
  simp only [stepTail, checkCollisions, finishStep] at h ⊢
  by_cases hc : (collideAux m 0 m.platforms).2.1 = true
  · rw [if_pos hc] at h
    dsimp only at h
    exact absurd ⟨h, hc⟩ (collideAux_not_both _ _ _)
  · rw [if_neg hc] at h ⊢
    by_cases hl : (collideAux m 0 m.platforms).1 = true
    · rw [if_pos hl] at h ⊢
      dsimp only at h ⊢
      by_cases hex : (collideAux m 0 m.platforms).2.2.target_platform_idx ≥
          (collideAux m 0 m.platforms).2.2.platforms.length
      · rw [if_pos hex]
        dsimp only
        simp [collideAux_counts]
      · rw [if_neg hex]
        dsimp only
        simp [collideAux_counts]
    · rw [if_neg hl] at h
      dsimp only at h
      exact absurd h hl

/-- A step that lands increments the landing count of the landed platform by
exactly one relative to the pre-step state. -/
theorem step_landed_counts (s : MarsState) (g : NpRandom) (a : ℕ)
    (h : (step s g a).landed = true) :
    ((step s g a).state).platform_landing_counts
        (((step s g a).state).last_landed_platform_idx) =
      s.platform_landing_counts
        (((step s g a).state).last_landed_platform_idx) + 1 := by
  simp only [step] at h ⊢
  rw [stepTail_landed_counts _ _ _ _ h]
  exact congrArg (fun n => n + 1) (congrFun (midState_counts s g a) _)

/-- C2 (amended): reset zeroes the step counter, the landing-count map, the
wind scalar and the wind timer, and reinitializes the distance tracker from
the fresh spawn and target positions (it is recomputed, not zeroed); a step
that lands adds exactly one to the landed platform's count, so a platform
landed on twice before reset and once after shows count 1. -/
theorem C2_reset_fresh_episode :
    (∀ (s : MarsState) (seed : Option ℕ) (g : NpRandom),
      ((resetState s seed g).1).steps = 0 ∧
      ((resetState s seed g).1).platform_landing_counts = (fun _ => 0) ∧
      ((resetState s seed g).1).wind_force = 0 ∧
      ((resetState s seed g).1).wind_timer = 0 ∧
      ((resetState s seed g).1).prev_distance =
        distanceToTarget ((resetState s seed g).1)) ∧
    (∀ (s : MarsState) (g : NpRandom) (a : ℕ), (step s g a).landed = true →
      ((step s g a).state).platform_landing_counts
          (((step s g a).state).last_landed_platform_idx) =
        s.platform_landing_counts
          (((step s g a).state).last_landed_platform_idx) + 1) :=
  ⟨fun _ _ _ => ⟨rfl, rfl, rfl, rfl, rfl⟩, step_landed_counts⟩

/-- Counterexample for C2 as frozen: after a concrete reset the distance
tracker is not zero (it holds the fresh spawn-to-target distance). -/
theorem C2_counterexample :
    ((resetState mkInit (some 0) gZero).1).prev_distance ≠ 0 := by
  have h : ((resetState mkInit (some 0) gZero).1).prev_distance =
      Real.sqrt 182500 := by
    norm_num [resetState, distanceToTarget, vecLen, spawnPlatforms,
      genPlatform, firstPlatform, np_randint, np_random01, fract01, gZero,
      mkInit, targetPlatform, defaultPlatform, SCREEN_WIDTH, PLATFORM_WIDTH,
      PLATFORM_HEIGHT, GROUND_LEVEL, PLATFORM_MIN_DISTANCE_X,
      PLATFORM_MAX_DISTANCE_X, PLATFORM_MIN_DISTANCE_Y,
      PLATFORM_MAX_DISTANCE_Y, MOVING_PLATFORMS_ENABLED, PLATFORM_MOVE_SPEED,
      NpRandom.next, MAX_FUEL]
  rw [h, Real.sqrt_ne_zero']
  norm_num

/-- The concrete hovering state really lands during its next step. -/
theorem step_sLand_landed : (step sLand gZero 0).landed = true := by
  norm_num [step, stepTail, midState, updateWind, updatePlatforms,
    updatePlatform, applyAction, thrustForce, physUpdate, checkCollisions,
    collideAux, finishStep, sLand, mkInit, testPlat0, DT, WIND_ENABLED,
    WIND_CHANGE_INTERVAL, MOVING_PLATFORMS_ENABLED, GRAVITY, DRAG,
    TERMINAL_VELOCITY, PLAYER_WIDTH, PLAYER_HEIGHT, MAX_LANDING_SPEED_X,
    MAX_LANDING_SPEED_Y, GROUND_LEVEL, MAX_FUEL, targetPlatform,
    defaultPlatform, abs_of_nonneg, abs_of_nonpos]

/-- Witness for C2: a concrete step that lands on platform 0 with an empty
landing-count map yields count 1 for that platform. -/
theorem C2_witness : (step sLand gZero 0).landed = true ∧
    ((step sLand gZero 0).state).platform_landing_counts
        (((step sLand gZero 0).state).last_landed_platform_idx) =
      sLand.platform_landing_counts
        (((step sLand gZero 0).state).last_landed_platform_idx) + 1 :=
  ⟨step_sLand_landed, C2_reset_fresh_episode.2 sLand gZero 0 step_sLand_landed⟩

/-- Flag discipline of the collision tail: the truncated flag is set exactly
by the out-of-bounds check or the step budget, and the terminated flag is
set exactly by a crash or by a landing that exhausts the platform list. -/
theorem stepTail_flags (m : MarsState) (g : NpRandom) (r : ℝ) (t : Platform) :
    ((stepTail m g r t).truncated = true ↔
      (((stepTail m g r t).state).player_pos.2 < -1000 ∨
        |((stepTail m g r t).state).player_pos.1 - (t.x + (t.width : ℝ) / 2)| > 2000 ∨
        ((stepTail m g r t).state).steps ≥ ((stepTail m g r t).state).max_steps)) ∧
    ((stepTail m g r t).terminated = true ↔
      ((stepTail m g r t).crashed = true ∨
        ((stepTail m g r t).landed = true ∧
          ((stepTail m g r t).state).platforms.length ≤
            ((stepTail m g r t).state).target_platform_idx))) := by
  simp only [stepTail, checkCollisions, finishStep]
  by_cases hc : (collideAux m 0 m.platforms).2.1 = true
  · rw [if_pos hc]
    dsimp only
    constructor
    · simp [or_assoc]
    · simp [hc]
  · rw [if_neg hc]
    by_cases hl : (collideAux m 0 m.platforms).1 = true
    · rw [if_pos hl]
      dsimp only
      by_cases hex : (collideAux m 0 m.platforms).2.2.target_platform_idx ≥
          (collideAux m 0 m.platforms).2.2.platforms.length
      · rw [if_pos hex]
        dsimp only
        constructor
        · simp [or_assoc]
        · simp [hl, hex]
      · rw [if_neg hex]
        dsimp only
        constructor
        · simp [or_assoc]
        · simp [hc, hex]
    · rw [if_neg hl]
      dsimp only
      constructor
      · simp [or_assoc]
      · simp [hc, hl]

/-- C3 (amended): in MarsGym.step the out-of-bounds condition (final y below
-1000, or final x further than 2000 from the target center computed after the
physics update) sets the truncated flag, not the terminated flag; truncated
is otherwise set only by the step budget, and terminated holds exactly on a
crash or on a landing that exhausts the platform list. -/
theorem C3_bounds_truncate_not_terminate (s : MarsState) (g : NpRandom)
    (a : ℕ) :
    ((step s g a).truncated = true ↔
      (((step s g a).state).player_pos.2 < -1000 ∨
        |((step s g a).state).player_pos.1 - stepTargetCenterX s g a| > 2000 ∨
        ((step s g a).state).steps ≥ ((step s g a).state).max_steps)) ∧
    ((step s g a).terminated = true ↔
      ((step s g a).crashed = true ∨
        ((step s g a).landed = true ∧
          ((step s g a).state).platforms.length ≤
            ((step s g a).state).target_platform_idx))) := by
  simp only [step, stepTargetCenterX, stepTarget]
  exact stepTail_flags _ _ _ _

/-- Counterexample for C3 as frozen: a concrete step ending far above the
world (y below -1000) comes back with terminated set to false and truncated
set to true, while the claim demands terminated. -/
theorem C3_counterexample :
    ((step sOob gZero 0).state).player_pos.2 < -1000 ∧
    (step sOob gZero 0).terminated = false ∧
    (step sOob gZero 0).truncated = true := by
  refine ⟨?_, ?_, ?_⟩ <;>
    norm_num [step, stepTail, midState, updateWind, updatePlatforms,
      updatePlatform, applyAction, thrustForce, physUpdate, checkCollisions,
      collideAux, finishStep, sOob, mkInit, testPlat0, DT, WIND_ENABLED,
      WIND_CHANGE_INTERVAL, MOVING_PLATFORMS_ENABLED, GRAVITY, DRAG,
      TERMINAL_VELOCITY, PLAYER_WIDTH, PLAYER_HEIGHT, MAX_LANDING_SPEED_X,
      MAX_LANDING_SPEED_Y, GROUND_LEVEL, MAX_FUEL, targetPlatform,
      defaultPlatform, abs_of_nonneg, abs_of_nonpos]

/-- On a crash, the reward of the collision tail is the accumulated shaping
reward plus the crash adjustment plus the out-of-bounds ground penalty. -/
theorem stepTail_crash_reward (m : MarsState) (g : NpRandom) (r : ℝ)
    (t : Platform) (h : (stepTail m g r t).crashed = true) :
    (stepTail m g r t).reward =
      r + crashAdjust ((stepTail m g r t).state).player_pos t +
      (if ((stepTail m g r t).state).player_pos.2 < -1000 ∨
          |((stepTail m g r t).state).player_pos.1 - (t.x + (t.width : ℝ) / 2)| > 2000
        then REWARD_CRASH_GROUND else 0) := by
  simp only [stepTail, checkCollisions, finishStep] at h ⊢
  by_cases hc : (collideAux m 0 m.platforms).2.1 = true
  · rw [if_pos hc]
  · rw [if_neg hc] at h ⊢
    by_cases hl : (collideAux m 0 m.platforms).1 = true
    · rw [if_pos hl] at h ⊢
      by_cases hex : (collideAux m 0 m.platforms).2.2.target_platform_idx ≥
          (collideAux m 0 m.platforms).2.2.platforms.length
      · rw [if_pos hex] at h
        dsimp only at h
        exact absurd h hc
      · rw [if_neg hex] at h
        dsimp only at h
        exact absurd h hc
    · rw [if_neg hl] at h
      dsimp only at h
      exact absurd h hc

/-- The crash adjustment pays the platform penalty exactly under strict
horizontal alignment with the target and feet within 20 of its top, and the
ground penalty in every other case. -/
theorem crashAdjust_cases (pos : ℝ × ℝ) (t : Platform) :
    ((t.x < pos.1 ∧ pos.1 < t.x + (t.width : ℝ) ∧
        |pos.2 - (t.y : ℝ)| < 20) →
      crashAdjust pos t = REWARD_CRASH_PLATFORM) ∧
    (¬(t.x < pos.1 ∧ pos.1 < t.x + (t.width : ℝ) ∧
        |pos.2 - (t.y : ℝ)| < 20) →
      crashAdjust pos t = REWARD_CRASH_GROUND) := by
  constructor
  · intro hc
    rw [crashAdjust, if_pos ⟨hc.1, hc.2.1⟩, if_pos hc.2.2]
  · intro hc
    rw [crashAdjust]
    by_cases ha : t.x < pos.1 ∧ pos.1 < t.x + (t.width : ℝ)
    · rw [if_pos ha, if_neg]
      intro hb
      exact hc ⟨ha.1, ha.2, hb⟩
    · rw [if_neg ha]

/-- C5 (amended): on a crash the step reward is the shaping reward plus the
crash adjustment (plus the separate out-of-bounds ground penalty when that
check fires), and the crash adjustment is the platform penalty exactly when
the final position is strictly inside the target's span with feet within 20
of the target's top; every other crash, including a landing-window
velocity-bound crash with overlap of 20 or more, pays the ground penalty. -/
theorem C5_crash_penalty_rule (s : MarsState) (g : NpRandom) (a : ℕ)
    (h : (step s g a).crashed = true) :
    ((step s g a).reward = rewardBase s g a +
      crashAdjust ((step s g a).state).player_pos (stepTarget s g a) +
      oobAdd s g a) ∧
    (((stepTarget s g a).x < ((step s g a).state).player_pos.1 ∧
        ((step s g a).state).player_pos.1 <
          (stepTarget s g a).x + ((stepTarget s g a).width : ℝ) ∧
        |((step s g a).state).player_pos.2 - ((stepTarget s g a).y : ℝ)| < 20) →
      crashAdjust ((step s g a).state).player_pos (stepTarget s g a) =
        REWARD_CRASH_PLATFORM) ∧
    (¬((stepTarget s g a).x < ((step s g a).state).player_pos.1 ∧
        ((step s g a).state).player_pos.1 <
          (stepTarget s g a).x + ((stepTarget s g a).width : ℝ) ∧
        |((step s g a).state).player_pos.2 - ((stepTarget s g a).y : ℝ)| < 20) →
      crashAdjust ((step s g a).state).player_pos (stepTarget s g a) =
        REWARD_CRASH_GROUND) := by
  refine ⟨?_, crashAdjust_cases _ _⟩
  simp only [step] at h ⊢
  have h2 := stepTail_crash_reward _ _ _ _ h
  simp only [oobAdd, rewardBase, stepDist, stepTargetCenterX, stepTarget, step]
  exact h2

/-- The 22-pixel-overlap scenario crashes. -/
theorem step_sCrashG_crashed : (step sCrashG gZero 0).crashed = true := by
  norm_num [step, stepTail, midState, updateWind, updatePlatforms,
    updatePlatform, applyAction, thrustForce, physUpdate, checkCollisions,
    collideAux, finishStep, sCrashG, mkInit, testPlat0, testPlat1, DT,
    WIND_ENABLED, WIND_CHANGE_INTERVAL, MOVING_PLATFORMS_ENABLED, GRAVITY,
    DRAG, TERMINAL_VELOCITY, PLAYER_WIDTH, PLAYER_HEIGHT,
    MAX_LANDING_SPEED_X, MAX_LANDING_SPEED_Y, GROUND_LEVEL, MAX_FUEL,
    targetPlatform, defaultPlatform, abs_of_nonneg, abs_of_nonpos]

/-- Final position of the 22-pixel-overlap scenario. -/
theorem step_sCrashG_pos :
    ((step sCrashG gZero 0).state).player_pos = (1040, 492) := by
  norm_num [step, stepTail, midState, updateWind, updatePlatforms,
    updatePlatform, applyAction, thrustForce, physUpdate, checkCollisions,
    collideAux, finishStep, sCrashG, mkInit, testPlat0, testPlat1, DT,
    WIND_ENABLED, WIND_CHANGE_INTERVAL, MOVING_PLATFORMS_ENABLED, GRAVITY,
    DRAG, TERMINAL_VELOCITY, PLAYER_WIDTH, PLAYER_HEIGHT,
    MAX_LANDING_SPEED_X, MAX_LANDING_SPEED_Y, GROUND_LEVEL, MAX_FUEL,
    targetPlatform, defaultPlatform, abs_of_nonneg, abs_of_nonpos,
    Prod.ext_iff]

/-- Final velocity of the 22-pixel-overlap scenario: the vertical
landing-speed bound is the only bound violated. -/
theorem step_sCrashG_vel :
    ((step sCrashG gZero 0).state).player_vel = (0, 940 / 3) := by
  norm_num [step, stepTail, midState, updateWind, updatePlatforms,
    updatePlatform, applyAction, thrustForce, physUpdate, checkCollisions,
    collideAux, finishStep, sCrashG, mkInit, testPlat0, testPlat1, DT,
    WIND_ENABLED, WIND_CHANGE_INTERVAL, MOVING_PLATFORMS_ENABLED, GRAVITY,
    DRAG, TERMINAL_VELOCITY, PLAYER_WIDTH, PLAYER_HEIGHT,
    MAX_LANDING_SPEED_X, MAX_LANDING_SPEED_Y, GROUND_LEVEL, MAX_FUEL,
    targetPlatform, defaultPlatform, abs_of_nonneg, abs_of_nonpos,
    Prod.ext_iff]

/-- Target platform step works with in the 22-pixel-overlap scenario. -/
theorem stepTarget_sCrashG : stepTarget sCrashG gZero 0 = testPlat1 := by
  norm_num [stepTarget, targetPlatform, midState, updateWind,
    updatePlatforms, updatePlatform, applyAction, thrustForce, physUpdate,
    sCrashG, mkInit, testPlat0, testPlat1, DT, WIND_ENABLED,
    WIND_CHANGE_INTERVAL, MOVING_PLATFORMS_ENABLED, GRAVITY, DRAG,
    TERMINAL_VELOCITY, MAX_FUEL, defaultPlatform]

/-- Counterexample for C5 as frozen: a crash classified through the landing
window of the target (overlap 22, horizontal center aligned) caused solely by
the vertical-speed bound, whose crash adjustment is nevertheless the ground
penalty, because the platform penalty additionally demands feet within 20 of
the target top. -/
theorem C5_counterexample :
    (step sCrashG gZero 0).crashed = true ∧
    ((step sCrashG gZero 0).state).player_pos = (1040, 492) ∧
    stepTarget sCrashG gZero 0 = testPlat1 ∧
    ((0 : ℝ) < 492 - (testPlat1.y : ℝ) ∧
      (492 : ℝ) - (testPlat1.y : ℝ) < (PLAYER_HEIGHT : ℝ) * (1 / 2) ∧
      testPlat1.x ≤ (1040 : ℝ) ∧
      (1040 : ℝ) ≤ testPlat1.x + (testPlat1.width : ℝ)) ∧
    |(((step sCrashG gZero 0).state).player_vel).2| > (MAX_LANDING_SPEED_Y : ℝ) ∧
    |(((step sCrashG gZero 0).state).player_vel).1| ≤ (MAX_LANDING_SPEED_X : ℝ) ∧
    crashAdjust ((step sCrashG gZero 0).state).player_pos
        (stepTarget sCrashG gZero 0) = REWARD_CRASH_GROUND ∧
    REWARD_CRASH_GROUND ≠ REWARD_CRASH_PLATFORM := by
  refine ⟨step_sCrashG_crashed, step_sCrashG_pos, stepTarget_sCrashG,
    ⟨?_, ?_, ?_, ?_⟩, ?_, ?_, ?_, ?_⟩
  · norm_num [testPlat1]
  · norm_num [testPlat1, PLAYER_HEIGHT]
  · norm_num [testPlat1]
  · norm_num [testPlat1]
  · rw [step_sCrashG_vel]
    norm_num [MAX_LANDING_SPEED_Y, abs_of_nonneg]
  · rw [step_sCrashG_vel]
    norm_num [MAX_LANDING_SPEED_X]
  · rw [step_sCrashG_pos, stepTarget_sCrashG, crashAdjust]
    rw [if_pos (by norm_num [testPlat1] :
      testPlat1.x < ((1040 : ℝ), (492 : ℝ)).1 ∧
      ((1040 : ℝ), (492 : ℝ)).1 < testPlat1.x + (testPlat1.width : ℝ))]
    rw [if_neg]
    norm_num [testPlat1, abs_of_nonneg]
  · norm_num [REWARD_CRASH_GROUND, REWARD_CRASH_PLATFORM]

/-- The 10-pixel-overlap scenario crashes. -/
theorem step_sCrashP_crashed : (step sCrashP gZero 0).crashed = true := by
  norm_num [step, stepTail, midState, updateWind, updatePlatforms,
    updatePlatform, applyAction, thrustForce, physUpdate, checkCollisions,
    collideAux, finishStep, sCrashP, mkInit, testPlat0, testPlat1, DT,
    WIND_ENABLED, WIND_CHANGE_INTERVAL, MOVING_PLATFORMS_ENABLED, GRAVITY,
    DRAG, TERMINAL_VELOCITY, PLAYER_WIDTH, PLAYER_HEIGHT,
    MAX_LANDING_SPEED_X, MAX_LANDING_SPEED_Y, GROUND_LEVEL, MAX_FUEL,
    targetPlatform, defaultPlatform, abs_of_nonneg, abs_of_nonpos]

/-- Final position of the 10-pixel-overlap scenario. -/
theorem step_sCrashP_pos :
    ((step sCrashP gZero 0).state).player_pos = (1040, 480) := by
  norm_num [step, stepTail, midState, updateWind, updatePlatforms,
    updatePlatform, applyAction, thrustForce, physUpdate, checkCollisions,
    collideAux, finishStep, sCrashP, mkInit, testPlat0, testPlat1, DT,
    WIND_ENABLED, WIND_CHANGE_INTERVAL, MOVING_PLATFORMS_ENABLED, GRAVITY,
    DRAG, TERMINAL_VELOCITY, PLAYER_WIDTH, PLAYER_HEIGHT,
    MAX_LANDING_SPEED_X, MAX_LANDING_SPEED_Y, GROUND_LEVEL, MAX_FUEL,
    targetPlatform, defaultPlatform, abs_of_nonneg, abs_of_nonpos,
    Prod.ext_iff]

/-- Target platform step works with in the 10-pixel-overlap scenario. -/
theorem stepTarget_sCrashP : stepTarget sCrashP gZero 0 = testPlat1 := by
  norm_num [stepTarget, targetPlatform, midState, updateWind,
    updatePlatforms, updatePlatform, applyAction, thrustForce, physUpdate,
    sCrashP, mkInit, testPlat0, testPlat1, DT, WIND_ENABLED,
    WIND_CHANGE_INTERVAL, MOVING_PLATFORMS_ENABLED, GRAVITY, DRAG,
    TERMINAL_VELOCITY, MAX_FUEL, defaultPlatform]

/-- Witness for C5: the same velocity-violating landing-window crash with
feet 10 below the target top draws the platform penalty. -/
theorem C5_witness : (step sCrashP gZero 0).crashed = true ∧
    crashAdjust ((step sCrashP gZero 0).state).player_pos
      (stepTarget sCrashP gZero 0) = REWARD_CRASH_PLATFORM := by
  refine ⟨step_sCrashP_crashed, ?_⟩
  apply (C5_crash_penalty_rule sCrashP gZero 0 step_sCrashP_crashed).2.1
  rw [step_sCrashP_pos, stepTarget_sCrashP]
  norm_num [testPlat1, abs_of_nonneg]

/-- First component of the observation after reset with the all-zero global
stream: platform 1 sits 400 pixels to the right of the spawn point. -/
theorem resetObs_gZero_relx : (resetObs mkInit (some 0) gZero).rel_x = -400 := by
  norm_num [resetObs, observe, resetState, spawnPlatforms, genPlatform,
    firstPlatform, np_randint, np_random01, np_uniform, fract01, gZero,
    mkInit, targetPlatform, defaultPlatform, distanceToTarget, vecLen,
    SCREEN_WIDTH, PLATFORM_WIDTH, PLATFORM_HEIGHT, GROUND_LEVEL,
    PLATFORM_MIN_DISTANCE_X, PLATFORM_MAX_DISTANCE_X,
    PLATFORM_MIN_DISTANCE_Y, PLATFORM_MAX_DISTANCE_Y,
    MOVING_PLATFORMS_ENABLED, PLATFORM_MOVE_SPEED, NpRandom.next, MAX_FUEL]

/-- First component of the observation after reset with a global stream that
differs only in its first raw integer draw: platform 1 lands one pixel
further right, although the seed argument is the same. -/
theorem resetObs_gOne_relx : (resetObs mkInit (some 0) gOne).rel_x = -401 := by
  norm_num [resetObs, observe, resetState, spawnPlatforms, genPlatform,
    firstPlatform, np_randint, np_random01, np_uniform, fract01, gOne,
    mkInit, targetPlatform, defaultPlatform, distanceToTarget, vecLen,
    SCREEN_WIDTH, PLATFORM_WIDTH, PLATFORM_HEIGHT, GROUND_LEVEL,
    PLATFORM_MIN_DISTANCE_X, PLATFORM_MAX_DISTANCE_X,
    PLATFORM_MIN_DISTANCE_Y, PLATFORM_MAX_DISTANCE_Y,
    MOVING_PLATFORMS_ENABLED, PLATFORM_MOVE_SPEED, NpRandom.next, MAX_FUEL]

/-- C1: the reset seed does not determine the trajectory.  With the seed
fixed at 0, two different states of the module-level numpy stream produce
different first observations (the platform layout differs), while the seed
argument itself influences nothing beyond the recorded np_seed field: the
code seeds the per-instance stream through the base-class reset and then
draws everything from the unseeded global stream. -/
theorem C1_seed_does_not_determine_trajectory :
    resetObs mkInit (some 0) gZero ≠ resetObs mkInit (some 0) gOne ∧
    (∀ (s : MarsState) (g : NpRandom) (a b : Option ℕ),
      eraseSeed (resetState s a g).1 = eraseSeed (resetState s b g).1 ∧
      (resetState s a g).2 = (resetState s b g).2) := by
  constructor
  · intro hEq
    have h1 := resetObs_gZero_relx
    rw [hEq, resetObs_gOne_relx] at h1
    norm_num at h1
  · intro s g a b
    exact ⟨rfl, rfl⟩

/-- Wind update leaves the platform list unchanged. -/
theorem updateWind_platforms (s : MarsState) (g : NpRandom) :
    ((updateWind s g).1).platforms = s.platforms := by
  rw [updateWind]; dsimp only; split_ifs <;> rfl

/-- Platform oscillation preserves the number of platforms. -/
theorem updatePlatforms_length (s : MarsState) (dt : ℚ) :
    (updatePlatforms s dt).platforms.length = s.platforms.length := by
  rw [updatePlatforms]; split_ifs
  · rfl
  · simp

/-- The actuator leaves the platform list unchanged. -/
theorem applyAction_platforms (s : MarsState) (a : ℕ) (dt : ℚ) :
    ((applyAction s a dt).2).platforms = s.platforms := by
  rw [applyAction]; split_ifs
  · rfl
  · cases thrustForce a <;> rfl

/-- The physics update leaves the platform list unchanged. -/
theorem physUpdate_platforms (s : MarsState) (dt : ℚ) :
    (physUpdate s dt).platforms = s.platforms := rfl

/-- The collision pass leaves the platform list unchanged. -/
theorem collideAux_platforms (s : MarsState) : ∀ (i : ℕ) (ps : List Platform),
    ((collideAux s i ps).2.2).platforms = s.platforms := by
  intro i ps
  induction ps generalizing i with
  | nil => rw [collideAux]; split_ifs <;> rfl
  | cons p rest ih =>
    rw [collideAux]; dsimp only
    split_ifs <;> first | rfl | exact ih (i + 1)

/-- The collision tail returns the platform list it was given. -/
theorem stepTail_state_platforms (m : MarsState) (g : NpRandom) (r : ℝ)
    (t : Platform) : ((stepTail m g r t).state).platforms = m.platforms := by
  simp only [stepTail, checkCollisions, finishStep]
  split_ifs <;> dsimp only <;> rw [collideAux_platforms]

/-- The number of platforms coming out of the first half of step equals the
number going in. -/
theorem midState_platforms_length (s : MarsState) (g : NpRandom) (a : ℕ) :
    ((midState s g a).1).platforms.length = s.platforms.length := by
  simp only [midState, physUpdate_platforms, applyAction_platforms]
  rw [updatePlatforms_length, updateWind_platforms]

/-- A step never changes the number of platforms. -/
theorem step_platforms_length (s : MarsState) (g : NpRandom) (a : ℕ) :
    ((step s g a).state).platforms.length = s.platforms.length := by
  simp only [step]
  rw [stepTail_state_platforms]
  exact midState_platforms_length s g a

/-- Counterexample for C9 as frozen: the trainer environment never generates
a platform on demand; no state, stream and action exist for which step
changes the platform count (reset generates a fixed field of 11). -/
theorem C9_counterexample :
    ¬ ∃ (s : MarsState) (g : NpRandom) (a : ℕ),
      ((step s g a).state).platforms.length ≠ s.platforms.length := by
  rintro ⟨s, g, a, h⟩
  exact h (step_platforms_length s g a)

/-- Appending to a nonempty manager grows the active list by one. -/
theorem spawnNext_length (pm : PlatformManager) (r : PyRandom)
    (h : pm.platforms ≠ []) :
    (spawnNext pm r).1.platforms.length = pm.platforms.length + 1 := by
  rw [spawnNext]
  rcases hl : pm.platforms.getLast? with _ | p
  · exact absurd (List.getLast?_eq_none_iff.mp hl) h
  · simp

/-- The top-up loop of the interactive host leaves at least
current_platform_index + 5 platforms in the active list. -/
theorem gameTopUp_length : ∀ (k : ℕ) (pm : PlatformManager) (r : PyRandom)
    (cur : ℕ), cur + 5 - pm.platforms.length ≤ k → pm.platforms ≠ [] →
    cur + 5 ≤ ((gameTopUp pm r cur).1).platforms.length := by
  intro k
  induction k with
  | zero =>
    intro pm r cur hk hne
    rw [gameTopUp, dif_neg]
    · dsimp only
      omega
    · rintro ⟨hlt, _⟩
      omega
  | succ n ih =>
    intro pm r cur hk hne
    by_cases hlt : pm.platforms.length < cur + 5
    · rw [gameTopUp, dif_pos ⟨hlt, hne⟩]
      apply ih
      · rw [spawnNext_length pm r hne]
        omega
      · have hlen := spawnNext_length pm r hne
        intro hnil
        rw [hnil] at hlen
        simp at hlen
    · rw [gameTopUp, dif_neg]
      · dsimp only
        omega
      · rintro ⟨hc, _⟩
        exact hlt hc

/-- C9 (amended): on-demand lookahead generation exists only in the
interactive host, whose update loop tops the active list up to at least
current_platform_index + 5 platforms; the trainer environment instead
generates a fixed field of 11 platforms at reset and step never generates
any. -/
theorem C9_lookahead_hosts :
    (∀ (pm : PlatformManager) (r : PyRandom) (cur : ℕ), pm.platforms ≠ [] →
      cur + 5 ≤ ((gameTopUp pm r cur).1).platforms.length) ∧
    (∀ (s : MarsState) (g : NpRandom) (a : ℕ),
      ((step s g a).state).platforms.length = s.platforms.length) ∧
    (∀ (s : MarsState) (seed : Option ℕ) (g : NpRandom),
      ((resetState s seed g).1).platforms.length = 11) :=
  ⟨fun pm r cur hne =>
      gameTopUp_length (cur + 5 - pm.platforms.length) pm r cur le_rfl hne,
    step_platforms_length, fun _ _ _ => rfl⟩

/-- Witness for C9: topping up a concrete one-platform manager with current
index 3 leaves at least eight platforms. -/
theorem C9_witness : pmTest.platforms ≠ [] ∧
    3 + 5 ≤ ((gameTopUp pmTest pyZero 3).1).platforms.length :=
  ⟨by simp [pmTest], C9_lookahead_hosts.1 pmTest pyZero 3 (by simp [pmTest])⟩

end

end MarsMars
